import Mathlib

/-!
Verification of the turn-orchestration logic of the cafees chat widget
(src/index.tsx). The component `handleSendMessage` is embedded as a pure
function from an application state and a turn environment (the behaviour
of the remote service, the chat-initialization flag and the randomness
draw) to a turn outcome recording the successive transcript values, the
final state, and the remote calls made.
-/

namespace Cafees

/-- The sender tag of a transcript record (src/index.tsx line 8). -/
inductive Sender where
  | user : Sender
  | bot : Sender
  | loading : Sender
deriving DecidableEq, Repr

/-- A transcript record (src/index.tsx lines 7-10). The text field is an
optional string because in the source a JavaScript `undefined` can be
assigned to it (`result.text` may be undefined); `none` models undefined. -/
structure Message where
  sender : Sender
  text : Option String
deriving DecidableEq, Repr

/-- A function call as delivered by the remote service. `argsItems` models
`fc.args.items`; `none` means the items argument (or args object) is
absent, in which case `items.join` in the source throws a TypeError. -/
structure FunctionCall where
  id : Option String
  name : String
  argsItems : Option (List String)
deriving DecidableEq, Repr

/-- The value returned by `chatRef.current.sendMessage` for the user turn:
a possibly empty list of function calls and an optional text. -/
structure SendResult where
  functionCalls : List FunctionCall
  text : Option String
deriving DecidableEq, Repr

/-- The functionResponses payload sent back through `sendMessage` with a
`toolResponse` (src/index.tsx lines 96-104). -/
structure FunctionResponse where
  id : Option String
  name : String
  result : String
deriving DecidableEq, Repr

/-- The mutable React state the handler touches: the transcript, the input
field and the in-flight flag (src/index.tsx lines 13-15). -/
structure AppState where
  messages : List Message
  userInput : String
  isLoading : Bool
deriving DecidableEq, Repr

/-- The environment of one turn: whether `chatRef.current` is set, how the
remote `sendMessage` call resolves, how the `toolResponse` call resolves
(its `.text` field, `none` for undefined), and the `Math.random()` draw. -/
structure TurnEnv where
  chatInitialized : Bool
  sendResult : Except Unit SendResult
  toolResult : Except Unit (Option String)
  rand : ℚ

/-- Whitespace characters stripped by the JavaScript `String.trim`. -/
def isJsWhitespace (c : Char) : Bool :=
  c = ' ' || c = '\t' || c = '\n' || c = '\r' ||
  c = '\x0b' || c = '\x0c' || c = '\xa0' || c = '\u1680' ||
  ('\u2000' ≤ c && c ≤ '\u200a') || c = '\u2028' || c = '\u2029' ||
  c = '\u202f' || c = '\u205f' || c = '\u3000' || c = '\ufeff'

/-- `String.trim` of JavaScript: strip leading and trailing whitespace. -/
def jsTrim (s : String) : String :=
  String.mk (((s.data.dropWhile isJsWhitespace).reverse.dropWhile isJsWhitespace).reverse)

/-- JavaScript string falsiness for an optional string: `undefined` and
the empty string are falsy. -/
def strFalsy : Option String → Bool
  | none => true
  | some s => s = ""

/-- `Array.prototype.join` with a separator, as used in `items.join` on a
list of strings (src/index.tsx line 93). -/
def jsJoin (sep : String) : List String → String
  | [] => ""
  | [x] => x
  | x :: y :: xs => x ++ sep ++ jsJoin sep (y :: xs)

/-- The order number `Math.floor(Math.random() * 10000)` computed from the
raw `Math.random()` draw (src/index.tsx line 92), written as an integer
division so that it evaluates by kernel reduction; the lemma
`orderNumber_eq_intFloor` below proves it equal to `⌊q * 10000⌋`. -/
def orderNumber (q : ℚ) : ℤ :=
  (q.num * 10000) / (q.den : ℤ)

/-- The transient pending record appended together with the user record
(src/index.tsx line 76). -/
def loadingMessage : Message :=
  ⟨Sender.loading, some "..."⟩

/-- The fixed apology record installed on any caught error
(src/index.tsx lines 116-119). -/
def errorMessage : Message :=
  ⟨Sender.bot, some "Sorry, something went wrong. Please try again."⟩

/-- The locally built confirmation string (src/index.tsx line 93). -/
def confirmationMessage (items : List String) (n : ℤ) : String :=
  "Great! I\x27ve placed an order for: " ++ jsJoin ", " items ++
    ". Your order number is #" ++ toString n ++ ". Is there anything else?"

/-- The `result` string of the tool response (src/index.tsx line 101). -/
def toolResultText (n : ℤ) : String :=
  "Order placed successfully. Order number: " ++ toString n

/-- The observable outcome of one invocation of `handleSendMessage`: the
final React state, the successive values taken by `messages` during the
turn (in order, excluding the initial value), the number of remote
`sendMessage` calls made (tool responses included) and the list of
functionResponses payloads sent. -/
structure TurnOutcome where
  state : AppState
  trace : List (List Message)
  sendCalls : Nat
  toolCalls : List FunctionResponse
deriving DecidableEq, Repr

/-- The turn handler `handleSendMessage` (src/index.tsx lines 71-124) as a
pure function of the captured state and the turn environment. Each branch
mirrors a control path of the source: the guard on line 73, the
initialization check on lines 81-83, the remote call on line 85, the
function-call dispatch on lines 88-109 and the catch block on lines
114-120; the finally block on lines 121-123 clears the loading flag. -/
def handleSendMessage (s : AppState) (env : TurnEnv) : TurnOutcome :=
  if jsTrim s.userInput = "" || s.isLoading then
    ⟨s, [], 0, []⟩
  else
    let userMessage : Message := ⟨Sender.user, some s.userInput⟩
    let m1 := s.messages ++ [userMessage, loadingMessage]
    let fail (sends : Nat) (tools : List FunctionResponse) : TurnOutcome :=
      ⟨⟨m1.dropLast ++ [errorMessage], "", false⟩,
        [m1, m1.dropLast ++ [errorMessage]], sends, tools⟩
    let resolve (botText : Option String) (sends : Nat)
        (tools : List FunctionResponse) : TurnOutcome :=
      ⟨⟨m1.dropLast ++ [⟨Sender.bot, botText⟩], "", false⟩,
        [m1, m1.dropLast ++ [⟨Sender.bot, botText⟩]], sends, tools⟩
    if !env.chatInitialized then
      fail 0 []
    else
      match env.sendResult with
      | Except.error _ => fail 1 []
      | Except.ok result =>
        match result.functionCalls with
        | [] => resolve result.text 1 []
        | fc :: _ =>
          if fc.name = "placeOrder" then
            match fc.argsItems with
            | none => fail 1 []
            | some items =>
              let n := orderNumber env.rand
              let fr : FunctionResponse := ⟨fc.id, fc.name, toolResultText n⟩
              match env.toolResult with
              | Except.error _ => fail 2 [fr]
              | Except.ok t =>
                resolve (if strFalsy t then some (confirmationMessage items n) else t) 2 [fr]
          else
            resolve (some "") 1 []

/-- The state installed by `initChat` (src/index.tsx lines 54-60), before
any user turn. -/
def initialState : AppState :=
  ⟨[⟨Sender.bot, some "Hello! Welcome to \x27The Golden Spoon\x27. What can I get for you today?"⟩],
    "", false⟩

/-- One submitted turn: the text typed into the input field and the
environment in which the turn runs. -/
structure TurnInput where
  text : String
  env : TurnEnv

/-- Run a sequence of submitted turns from a state, collecting every
intermediate transcript value. -/
def runTurns : AppState → List TurnInput → AppState × List (List Message)
  | s, [] => (s, [])
  | s, i :: rest =>
    let o := handleSendMessage ⟨s.messages, i.text, s.isLoading⟩ i.env
    let r := runTurns o.state rest
    (r.1, o.trace ++ r.2)

/-- Number of pending (loading) records in a transcript. -/
def pendingCount (ms : List Message) : Nat :=
  (ms.filter fun m => m.sender = Sender.loading).length

/-- The pending-record invariant: at most one pending record, and while
one is present it is the last element. -/
def pendingInvariant (ms : List Message) : Bool :=
  pendingCount ms ≤ 1 &&
    (pendingCount ms = 0 ||
      (match ms.getLast? with
       | some m => m.sender = Sender.loading
       | none => false))

/-- Whether a turn in environment `env` raises an error that the catch
block of `handleSendMessage` converts into the apology record: the chat
handle is unset (line 82), the remote call rejects (line 85), the items
argument is absent so `items.join` throws a TypeError (line 93), or the
tool-response call rejects (line 96). -/
def turnRaisesError (env : TurnEnv) : Bool :=
  !env.chatInitialized ||
    match env.sendResult with
    | Except.error _ => true
    | Except.ok r =>
      match r.functionCalls with
      | [] => false
      | fc :: _ =>
        fc.name = "placeOrder" &&
          (fc.argsItems.isNone ||
            match env.toolResult with
            | Except.error _ => true
            | Except.ok _ => false)

/-- Whether the last record of a transcript is a bot record. -/
def lastIsBot (ms : List Message) : Bool :=
  match ms.getLast? with
  | some m => m.sender = Sender.bot
  | none => false

/-- Every transcript state holding a pending record is immediately
followed by one with no pending record whose last element is a bot
record, and no pending record survives at the end of the trace. -/
def eventuallyResolved : List (List Message) → Bool
  | [] => true
  | [ms] => pendingCount ms = 0
  | ms :: ms2 :: rest =>
    (pendingCount ms = 0 || (pendingCount ms2 = 0 && lastIsBot ms2)) &&
      eventuallyResolved (ms2 :: rest)

/-! ## Basic lemmas -/

/-- `orderNumber` is the floor of `Math.random() * 10000`. -/
lemma orderNumber_eq_intFloor (q : ℚ) : orderNumber q = Int.floor (q * 10000) := by
  rw [orderNumber, ← Rat.floor_intCast_div_natCast (q.num * 10000) q.den]
  congr 1
  calc ((q.num * 10000 : ℤ) : ℚ) / (q.den : ℚ)
      = ((q.num : ℚ) / (q.den : ℚ)) * 10000 := by push_cast; ring
    _ = q * 10000 := by rw [Rat.num_div_den]

/-- Dropping the last element of a transcript extended by a user record
and a pending record leaves the user record in place. -/
lemma dropLast_append_pair (ms : List Message) (a b : Message) :
    (ms ++ [a, b]).dropLast = ms ++ [a] := by
  rw [show ms ++ [a, b] = (ms ++ [a]) ++ [b] by simp, List.dropLast_concat]

/-- The last element of a transcript extended by two records is the
second of them. -/
lemma getLast?_append_pair (ms : List Message) (a b : Message) :
    (ms ++ [a, b]).getLast? = some b := by
  rw [show ms ++ [a, b] = (ms ++ [a]) ++ [b] by simp, List.getLast?_concat]

/-- Pending records are counted independently on both sides of an
append. -/
lemma pendingCount_append (xs ys : List Message) :
    pendingCount (xs ++ ys) = pendingCount xs + pendingCount ys := by
  simp [pendingCount, List.filter_append]

/-- A resolved state at the head of a trace does not affect
`eventuallyResolved`. -/
lemma eventuallyResolved_cons (ms : List Message) (l : List (List Message))
    (h : pendingCount ms = 0) : eventuallyResolved (ms :: l) = eventuallyResolved l := by
  cases l with
  | nil => simp [eventuallyResolved, h]
  | cons x xs => simp [eventuallyResolved, h]

/-- Every element of a list occurs verbatim inside its comma join. -/
lemma jsJoin_contains (it : String) (l : List String) (h : it ∈ l) :
    ∃ p q, jsJoin ", " l = p ++ it ++ q := by
  induction l with
  | nil => cases h
  | cons x xs ih =>
    rcases List.mem_cons.mp h with hx | hx
    · subst hx
      cases xs with
      | nil => exact ⟨"", "", by simp [jsJoin, String.append_empty, String.empty_append]⟩
      | cons y ys =>
        refine ⟨"", ", " ++ jsJoin ", " (y :: ys), ?_⟩
        simp [jsJoin, String.append_assoc, String.empty_append]
    · obtain ⟨p, q, hpq⟩ := ih hx
      cases xs with
      | nil => simp at hx
      | cons y ys =>
        refine ⟨x ++ ", " ++ p, q, ?_⟩
        rw [show jsJoin ", " (x :: y :: ys) = x ++ ", " ++ jsJoin ", " (y :: ys) from rfl, hpq]
        simp [String.append_assoc]

/-- The order-number section of the confirmation splits off its hash
sign. -/
lemma hash_append_split (x : String) :
    (". Your order number is #" : String) ++ x = ". Your order number is " ++ ("#" ++ x) := by
  have h : ((". Your order number is " : String) ++ "#") = ". Your order number is #" := by decide
  rw [← h, String.append_assoc]

/-- The locally built confirmation string is never empty. -/
lemma confirmationMessage_ne_empty (items : List String) (n : ℤ) :
    confirmationMessage items n ≠ "" := by
  intro h
  have hlen := congrArg String.length h
  simp only [confirmationMessage, String.length_append] at hlen
  have h33 : ("Great! I\x27ve placed an order for: " : String).length = 33 := by decide
  have h0 : ("" : String).length = 0 := by decide
  rw [h33, h0] at hlen
  omega

/-- Each control path of a guard-passing turn appends the user record and
the pending record, then replaces the pending record with a bot record,
leaving the input cleared and the loading flag reset; at most one tool
response is ever sent. -/
lemma handleSendMessage_shape (s : AppState) (env : TurnEnv)
    (h1 : jsTrim s.userInput ≠ "") (h2 : s.isLoading = false) :
    ∃ (last : Message) (sends : Nat) (tools : List FunctionResponse),
      last.sender = Sender.bot ∧ tools.length ≤ 1 ∧
      handleSendMessage s env =
        ⟨⟨s.messages ++ [⟨Sender.user, some s.userInput⟩, last], "", false⟩,
          [s.messages ++ [⟨Sender.user, some s.userInput⟩, loadingMessage],
           s.messages ++ [⟨Sender.user, some s.userInput⟩, last]],
          sends, tools⟩ := by
  obtain ⟨ci, sr, tr, rand⟩ := env
  cases ci
  · exact ⟨errorMessage, 0, [], rfl, by norm_num,
      by simp [handleSendMessage, h1, h2, dropLast_append_pair]⟩
  rcases sr with _ | ⟨fcs, txt⟩
  · exact ⟨errorMessage, 1, [], rfl, by norm_num,
      by simp [handleSendMessage, h1, h2, dropLast_append_pair]⟩
  rcases fcs with _ | ⟨fc, rest⟩
  · exact ⟨⟨Sender.bot, txt⟩, 1, [], rfl, by norm_num,
      by simp [handleSendMessage, h1, h2, dropLast_append_pair]⟩
  by_cases hn : fc.name = "placeOrder"
  · rcases hi : fc.argsItems with _ | items
    · exact ⟨errorMessage, 1, [], rfl, by norm_num,
        by simp [handleSendMessage, h1, h2, hn, hi, dropLast_append_pair]⟩
    · rcases tr with _ | t
      · exact ⟨errorMessage, 2, [⟨fc.id, fc.name, toolResultText (orderNumber rand)⟩], rfl,
          by norm_num,
          by simp [handleSendMessage, h1, h2, hn, hi, dropLast_append_pair]⟩
      · exact ⟨⟨Sender.bot,
            if strFalsy t then some (confirmationMessage items (orderNumber rand)) else t⟩,
          2, [⟨fc.id, fc.name, toolResultText (orderNumber rand)⟩], rfl, by norm_num,
          by simp [handleSendMessage, h1, h2, hn, hi, dropLast_append_pair]⟩
  · exact ⟨⟨Sender.bot, some ""⟩, 1, [], rfl, by norm_num,
      by simp [handleSendMessage, h1, h2, hn, dropLast_append_pair]⟩

/-- A guard-passing turn whose environment raises an error ends with the
apology record in place of the pending record, with at most two remote
calls made. -/
lemma handleSendMessage_error (s : AppState) (env : TurnEnv)
    (h1 : jsTrim s.userInput ≠ "") (h2 : s.isLoading = false)
    (herr : turnRaisesError env = true) :
    ∃ (sends : Nat) (tools : List FunctionResponse), sends ≤ 2 ∧
      handleSendMessage s env =
        ⟨⟨s.messages ++ [⟨Sender.user, some s.userInput⟩, errorMessage], "", false⟩,
         [s.messages ++ [⟨Sender.user, some s.userInput⟩, loadingMessage],
          s.messages ++ [⟨Sender.user, some s.userInput⟩, errorMessage]],
         sends, tools⟩ := by
  obtain ⟨ci, sr, tr, rand⟩ := env
  cases ci
  · exact ⟨0, [], by norm_num, by simp [handleSendMessage, h1, h2, dropLast_append_pair]⟩
  rcases sr with _ | ⟨fcs, txt⟩
  · exact ⟨1, [], by norm_num, by simp [handleSendMessage, h1, h2, dropLast_append_pair]⟩
  rcases fcs with _ | ⟨fc, rest⟩
  · simp [turnRaisesError] at herr
  by_cases hn : fc.name = "placeOrder"
  · rcases hi : fc.argsItems with _ | items
    · exact ⟨1, [], by norm_num,
        by simp [handleSendMessage, h1, h2, hn, hi, dropLast_append_pair]⟩
    · rcases tr with _ | t
      · exact ⟨2, [⟨fc.id, fc.name, toolResultText (orderNumber rand)⟩], by norm_num,
          by simp [handleSendMessage, h1, h2, hn, hi, dropLast_append_pair]⟩
      · simp [turnRaisesError, hn, hi] at herr
  · simp [turnRaisesError, hn] at herr

/-- One turn keeps the pending invariant along its trace and never leaves
a pending record behind. -/
lemma turn_step (s : AppState) (env : TurnEnv) (hs : pendingCount s.messages = 0) :
    pendingCount (handleSendMessage s env).state.messages = 0 ∧
    (∀ ms ∈ (handleSendMessage s env).trace, pendingInvariant ms = true) ∧
    ((handleSendMessage s env).trace = [] ∨
      ∃ m1 m2, (handleSendMessage s env).trace = [m1, m2] ∧ pendingCount m1 = 1 ∧
        pendingCount m2 = 0 ∧ lastIsBot m2 = true) := by
  by_cases h1 : jsTrim s.userInput = ""
  · simp [handleSendMessage, h1, hs]
  cases hl : s.isLoading
  · obtain ⟨last, sends, tools, hlast, _, heq⟩ := handleSendMessage_shape s env h1 hl
    rw [heq]
    have hcu : pendingCount [⟨Sender.user, some s.userInput⟩, last] = 0 := by
      simp [pendingCount, List.filter, hlast]
    have hcl : pendingCount [⟨Sender.user, some s.userInput⟩, loadingMessage] = 1 := by
      simp [pendingCount, List.filter, loadingMessage]
    have hm2 : pendingCount (s.messages ++ [⟨Sender.user, some s.userInput⟩, last]) = 0 := by
      rw [pendingCount_append, hs, hcu]
    have hm1 : pendingCount (s.messages ++ [⟨Sender.user, some s.userInput⟩, loadingMessage]) = 1 := by
      rw [pendingCount_append, hs, hcl]
    have hbot : lastIsBot (s.messages ++ [⟨Sender.user, some s.userInput⟩, last]) = true := by
      simp [lastIsBot, getLast?_append_pair, hlast]
    refine ⟨hm2, ?_, Or.inr ⟨_, _, rfl, hm1, hm2, hbot⟩⟩
    intro ms hms
    simp only [List.mem_cons, List.not_mem_nil, or_false] at hms
    rcases hms with h | h
    · subst h
      simp only [pendingInvariant, hm1, getLast?_append_pair]
      decide
    · subst h
      simp [pendingInvariant, hm2]
  · simp [handleSendMessage, h1, hl, hs]

/-- Any turn sequence starting from a transcript without pending records
keeps the pending invariant at every intermediate transcript state,
resolves every pending record, and ends without pending records. -/
lemma runTurns_inv (inputs : List TurnInput) : ∀ (s : AppState),
    pendingCount s.messages = 0 →
    (∀ ms ∈ (runTurns s inputs).2, pendingInvariant ms = true) ∧
    eventuallyResolved (runTurns s inputs).2 = true ∧
    pendingCount (runTurns s inputs).1.messages = 0 := by
  induction inputs with
  | nil => intro s hs; simp [runTurns, eventuallyResolved, hs]
  | cons i rest ih =>
    intro s hs
    obtain ⟨hfin, htr, hshape⟩ := turn_step ⟨s.messages, i.text, s.isLoading⟩ i.env hs
    obtain ⟨ihmem, ihres, ihfin⟩ := ih _ hfin
    refine ⟨?_, ?_, ?_⟩
    · intro ms hms
      simp only [runTurns, List.mem_append] at hms
      rcases hms with h | h
      · exact htr ms h
      · exact ihmem ms h
    · show eventuallyResolved
        ((handleSendMessage ⟨s.messages, i.text, s.isLoading⟩ i.env).trace
          ++ (runTurns (handleSendMessage ⟨s.messages, i.text, s.isLoading⟩ i.env).state rest).2) = true
      rcases hshape with h | ⟨m1, m2, heq, hc1, hc2, hb⟩
      · rw [h]
        simpa using ihres
      · rw [heq]
        have h2 : eventuallyResolved
            (m2 :: (runTurns (handleSendMessage ⟨s.messages, i.text, s.isLoading⟩ i.env).state rest).2)
            = true := by
          rw [eventuallyResolved_cons _ _ hc2]
          exact ihres
        simp [eventuallyResolved, hc2, hb, h2]
    · exact ihfin

/-! ## Claims -/

/-- C1: for every sequence of submitted turns, the transcript contains at
most one pending record at any time; while present it is the last
element; every pending record is replaced in the immediately following
transcript state by a final bot record (the bot reply or the error
record), and no pending record survives at the end of the run. -/
theorem C1_pending_record_invariant (inputs : List TurnInput) :
    (∀ ms ∈ (runTurns initialState inputs).2, pendingInvariant ms = true) ∧
    eventuallyResolved (runTurns initialState inputs).2 = true ∧
    pendingCount (runTurns initialState inputs).1.messages = 0 :=
  runTurns_inv inputs initialState (by decide)

/-- Witness for C1 on a concrete two-turn run: a resolved plain-text turn
followed by a rejected one. -/
theorem C1_pending_record_invariant_witness :
    (∀ ms ∈ (runTurns initialState
        [⟨"hi", ⟨true, Except.ok ⟨[], some "hello"⟩, Except.ok none, 0⟩⟩,
         ⟨"menu", ⟨true, Except.error (), Except.ok none, 0⟩⟩]).2,
      pendingInvariant ms = true) ∧
    eventuallyResolved (runTurns initialState
        [⟨"hi", ⟨true, Except.ok ⟨[], some "hello"⟩, Except.ok none, 0⟩⟩,
         ⟨"menu", ⟨true, Except.error (), Except.ok none, 0⟩⟩]).2 = true ∧
    pendingCount (runTurns initialState
        [⟨"hi", ⟨true, Except.ok ⟨[], some "hello"⟩, Except.ok none, 0⟩⟩,
         ⟨"menu", ⟨true, Except.error (), Except.ok none, 0⟩⟩]).1.messages = 0 :=
  C1_pending_record_invariant
    [⟨"hi", ⟨true, Except.ok ⟨[], some "hello"⟩, Except.ok none, 0⟩⟩,
     ⟨"menu", ⟨true, Except.error (), Except.ok none, 0⟩⟩]

/-- C2: for every error raised during a guard-passing turn
(initialization failure, transport failure, malformed tool arguments, or
tool-response failure), the pending record is replaced with exactly the
fixed apology text, the loading flag is reset so control returns to Idle,
no remote call is retried (at most the one send and the one tool response
were issued), and any later non-blank submission proceeds (its trace is
nonempty). -/
theorem C2_error_turn_apology (s : AppState) (env : TurnEnv)
    (h1 : jsTrim s.userInput ≠ "") (h2 : s.isLoading = false)
    (herr : turnRaisesError env = true) :
    (handleSendMessage s env).state.messages
      = s.messages ++ [⟨Sender.user, some s.userInput⟩,
          ⟨Sender.bot, some "Sorry, something went wrong. Please try again."⟩] ∧
    (handleSendMessage s env).state.isLoading = false ∧
    (handleSendMessage s env).sendCalls ≤ 2 ∧
    ∀ (t : String) (env2 : TurnEnv), jsTrim t ≠ "" →
      (handleSendMessage
          ⟨(handleSendMessage s env).state.messages, t,
            (handleSendMessage s env).state.isLoading⟩ env2).trace ≠ [] := by
  obtain ⟨sends, tools, hsends, heq⟩ := handleSendMessage_error s env h1 h2 herr
  refine ⟨by rw [heq]; simp [errorMessage], by rw [heq], by rw [heq]; exact hsends, ?_⟩
  intro t env2 ht
  have hload : (handleSendMessage s env).state.isLoading = false := by rw [heq]
  obtain ⟨last2, sends2, tools2, _, _, heq2⟩ :=
    handleSendMessage_shape
      ⟨(handleSendMessage s env).state.messages, t,
        (handleSendMessage s env).state.isLoading⟩ env2 ht hload
  rw [heq2]
  simp

/-- Witness for C2: a concrete turn whose remote call rejects. -/
theorem C2_error_turn_apology_witness :
    jsTrim "hello" ≠ "" ∧
    turnRaisesError ⟨true, Except.error (), Except.ok none, 0⟩ = true ∧
    (handleSendMessage ⟨[], "hello", false⟩ ⟨true, Except.error (), Except.ok none, 0⟩).state.messages
      = [⟨Sender.user, some "hello"⟩,
         ⟨Sender.bot, some "Sorry, something went wrong. Please try again."⟩] ∧
    (handleSendMessage ⟨[], "hello", false⟩ ⟨true, Except.error (), Except.ok none, 0⟩).state.isLoading
      = false := by
  refine ⟨by decide, by decide, ?_, ?_⟩
  · have h := C2_error_turn_apology ⟨[], "hello", false⟩ ⟨true, Except.error (), Except.ok none, 0⟩
      (by decide) rfl (by decide)
    simpa using h.1
  · have h := C2_error_turn_apology ⟨[], "hello", false⟩ ⟨true, Except.error (), Except.ok none, 0⟩
      (by decide) rfl (by decide)
    exact h.2.1

/-- C3: for every submission whose text is empty or whitespace-only, no
user record is appended, no pending record is created and no remote call
is made; the whole state is unchanged. -/
theorem C3_blank_submission_noop (s : AppState) (env : TurnEnv)
    (h : jsTrim s.userInput = "") :
    handleSendMessage s env = ⟨s, [], 0, []⟩ := by
  simp [handleSendMessage, h]

/-- Witness for C3 on a whitespace-only input. -/
theorem C3_blank_submission_noop_witness :
    jsTrim " \t " = "" ∧
    handleSendMessage ⟨[], " \t ", false⟩ ⟨true, Except.ok ⟨[], some "x"⟩, Except.ok none, 0⟩
      = ⟨⟨[], " \t ", false⟩, [], 0, []⟩ :=
  ⟨by decide, C3_blank_submission_noop _ _ (by decide)⟩

/-- C4: for every submission made while a turn is in flight (`isLoading`
is true), the submission is a no-op: no records are appended, no remote
call is made and the state is unchanged. -/
theorem C4_inflight_submission_noop (s : AppState) (env : TurnEnv)
    (h : s.isLoading = true) :
    handleSendMessage s env = ⟨s, [], 0, []⟩ := by
  simp [handleSendMessage, h]

/-- Witness for C4 on a non-blank input submitted while loading. -/
theorem C4_inflight_submission_noop_witness :
    (⟨[], "hello", true⟩ : AppState).isLoading = true ∧
    handleSendMessage ⟨[], "hello", true⟩ ⟨true, Except.ok ⟨[], some "x"⟩, Except.ok none, 0⟩
      = ⟨⟨[], "hello", true⟩, [], 0, []⟩ :=
  ⟨rfl, C4_inflight_submission_noop _ _ rfl⟩

/-- C8: for every draw of the randomness source in `[0, 1)`, the generated
order number is an integer between 0 and 9999 inclusive. -/
theorem C8_orderNumber_range (q : ℚ) (h0 : 0 ≤ q) (h1 : q < 1) :
    0 ≤ orderNumber q ∧ orderNumber q ≤ 9999 := by
  rw [orderNumber_eq_intFloor]
  refine ⟨Int.floor_nonneg.mpr (by positivity), ?_⟩
  have h3 : Int.floor (q * 10000) < 10000 := by
    apply Int.floor_lt.mpr
    push_cast
    nlinarith
  omega

/-- Witness for C8 at the draw 1/2. -/
theorem C8_orderNumber_range_witness :
    (0 : ℚ) ≤ 1/2 ∧ (1/2 : ℚ) < 1 ∧ 0 ≤ orderNumber (1/2) ∧ orderNumber (1/2) ≤ 9999 := by
  refine ⟨by norm_num, by norm_num, ?_, ?_⟩
  · exact (C8_orderNumber_range (1/2) (by norm_num) (by norm_num)).1
  · exact (C8_orderNumber_range (1/2) (by norm_num) (by norm_num)).2

/-- C7: for every guard-passing turn whose response carries no function
calls and has text `t`, the pending record is replaced with exactly one
new bot record holding `t`, no tool is invoked and no tool response is
sent (one remote call in total). -/
theorem C7_plaintext_turn (s : AppState) (env : TurnEnv) (r : SendResult) (t : String)
    (h1 : jsTrim s.userInput ≠ "") (h2 : s.isLoading = false)
    (hinit : env.chatInitialized = true)
    (hsend : env.sendResult = Except.ok r)
    (hfc : r.functionCalls = [])
    (ht : r.text = some t) :
    (handleSendMessage s env).state.messages
      = s.messages ++ [⟨Sender.user, some s.userInput⟩, ⟨Sender.bot, some t⟩] ∧
    (handleSendMessage s env).toolCalls = [] ∧
    (handleSendMessage s env).sendCalls = 1 := by
  simp [handleSendMessage, h1, h2, hinit, hsend, hfc, ht, dropLast_append_pair]

/-- Witness for C7: a concrete menu question answered in plain text. -/
theorem C7_plaintext_turn_witness :
    (handleSendMessage ⟨[], "What is on the menu?", false⟩
        ⟨true, Except.ok ⟨[], some "We serve Pizza and Coke."⟩, Except.ok none, 0⟩).state.messages
      = [⟨Sender.user, some "What is on the menu?"⟩,
         ⟨Sender.bot, some "We serve Pizza and Coke."⟩] ∧
    (handleSendMessage ⟨[], "What is on the menu?", false⟩
        ⟨true, Except.ok ⟨[], some "We serve Pizza and Coke."⟩, Except.ok none, 0⟩).toolCalls = [] ∧
    (handleSendMessage ⟨[], "What is on the menu?", false⟩
        ⟨true, Except.ok ⟨[], some "We serve Pizza and Coke."⟩, Except.ok none, 0⟩).sendCalls = 1 := by
  have h := C7_plaintext_turn ⟨[], "What is on the menu?", false⟩
    ⟨true, Except.ok ⟨[], some "We serve Pizza and Coke."⟩, Except.ok none, 0⟩
    ⟨[], some "We serve Pizza and Coke."⟩ "We serve Pizza and Coke."
    (by decide) rfl rfl rfl rfl rfl
  simpa using h

/-- C10: for every guard-passing turn whose response has function calls
but whose first function call is not named placeOrder, no tool is
executed and no tool response is sent, no error is raised, and the
pending record is replaced with a bot record holding the empty string;
moreover the turn outcome depends on the function-call list only through
its first element. -/
theorem C10_unknown_function_turn (s : AppState) (env : TurnEnv)
    (fc : FunctionCall) (rest : List FunctionCall)
    (txt : Option String)
    (h1 : jsTrim s.userInput ≠ "") (h2 : s.isLoading = false)
    (hinit : env.chatInitialized = true)
    (hsend : env.sendResult = Except.ok ⟨fc :: rest, txt⟩)
    (hn : fc.name ≠ "placeOrder") :
    ((handleSendMessage s env).state.messages
        = s.messages ++ [⟨Sender.user, some s.userInput⟩, ⟨Sender.bot, some ""⟩] ∧
      (handleSendMessage s env).toolCalls = [] ∧
      (handleSendMessage s env).sendCalls = 1) ∧
    handleSendMessage s env
      = handleSendMessage s ⟨env.chatInitialized, Except.ok ⟨[fc], txt⟩, env.toolResult, env.rand⟩ := by
  constructor
  · simp [handleSendMessage, h1, h2, hinit, hsend, hn, dropLast_append_pair]
  · simp [handleSendMessage, hsend]

/-- Witness for C10: a response asking for an unrecognized function,
followed by a second call that is ignored. -/
theorem C10_unknown_function_turn_witness :
    ((handleSendMessage ⟨[], "cancel it", false⟩
        ⟨true, Except.ok ⟨[⟨some "c3", "cancelOrder", some ["Pizza"]⟩,
            ⟨some "c4", "placeOrder", some ["Coke"]⟩], some "ignored"⟩,
          Except.ok none, 0⟩).state.messages
      = [⟨Sender.user, some "cancel it"⟩, ⟨Sender.bot, some ""⟩] ∧
    (handleSendMessage ⟨[], "cancel it", false⟩
        ⟨true, Except.ok ⟨[⟨some "c3", "cancelOrder", some ["Pizza"]⟩,
            ⟨some "c4", "placeOrder", some ["Coke"]⟩], some "ignored"⟩,
          Except.ok none, 0⟩).toolCalls = [] ∧
    (handleSendMessage ⟨[], "cancel it", false⟩
        ⟨true, Except.ok ⟨[⟨some "c3", "cancelOrder", some ["Pizza"]⟩,
            ⟨some "c4", "placeOrder", some ["Coke"]⟩], some "ignored"⟩,
          Except.ok none, 0⟩).sendCalls = 1) ∧
    handleSendMessage ⟨[], "cancel it", false⟩
        ⟨true, Except.ok ⟨[⟨some "c3", "cancelOrder", some ["Pizza"]⟩,
            ⟨some "c4", "placeOrder", some ["Coke"]⟩], some "ignored"⟩,
          Except.ok none, 0⟩
      = handleSendMessage ⟨[], "cancel it", false⟩
        ⟨true, Except.ok ⟨[⟨some "c3", "cancelOrder", some ["Pizza"]⟩], some "ignored"⟩,
          Except.ok none, 0⟩ := by
  have h := C10_unknown_function_turn ⟨[], "cancel it", false⟩
    ⟨true, Except.ok ⟨[⟨some "c3", "cancelOrder", some ["Pizza"]⟩,
        ⟨some "c4", "placeOrder", some ["Coke"]⟩], some "ignored"⟩,
      Except.ok none, 0⟩
    ⟨some "c3", "cancelOrder", some ["Pizza"]⟩
    [⟨some "c4", "placeOrder", some ["Coke"]⟩] (some "ignored") (by decide) rfl rfl rfl (by decide)
  exact ⟨by simpa using h.1, h.2⟩

/-- C5 counterexample: a placeOrder invocation whose items argument is
the empty list is NOT treated as a malformed-arguments error: the turn
resolves with the locally built confirmation (not the apology text) and
the tool response is sent. -/
theorem C5_counterexample :
    (handleSendMessage ⟨[], "order food", false⟩
        ⟨true, Except.ok ⟨[⟨some "call1", "placeOrder", some []⟩], none⟩,
          Except.ok none, 0⟩).state.messages
      = [⟨Sender.user, some "order food"⟩,
         ⟨Sender.bot,
          some "Great! I\x27ve placed an order for: . Your order number is #0. Is there anything else?"⟩] ∧
    (handleSendMessage ⟨[], "order food", false⟩
        ⟨true, Except.ok ⟨[⟨some "call1", "placeOrder", some []⟩], none⟩,
          Except.ok none, 0⟩).toolCalls
      = [⟨some "call1", "placeOrder", "Order placed successfully. Order number: 0"⟩] := by
  decide

/-- C5 as amended: a missing items argument makes the turn fail with the
fixed apology text and no tool response; an empty items list is not an
error — the tool response is sent and the turn resolves with the
service text or the locally built confirmation over zero items. -/
theorem C5_missing_items_error (s : AppState) (env : TurnEnv) (r : SendResult)
    (fc : FunctionCall) (rest : List FunctionCall)
    (h1 : jsTrim s.userInput ≠ "") (h2 : s.isLoading = false)
    (hinit : env.chatInitialized = true)
    (hsend : env.sendResult = Except.ok r)
    (hfc : r.functionCalls = fc :: rest)
    (hn : fc.name = "placeOrder") :
    (fc.argsItems = none →
      (handleSendMessage s env).state.messages
        = s.messages ++ [⟨Sender.user, some s.userInput⟩,
            ⟨Sender.bot, some "Sorry, something went wrong. Please try again."⟩] ∧
      (handleSendMessage s env).toolCalls = []) ∧
    (∀ t : Option String, fc.argsItems = some [] → env.toolResult = Except.ok t →
      (handleSendMessage s env).toolCalls
        = [⟨fc.id, fc.name, "Order placed successfully. Order number: "
            ++ toString (orderNumber env.rand)⟩] ∧
      (handleSendMessage s env).state.messages
        = s.messages ++ [⟨Sender.user, some s.userInput⟩,
            ⟨Sender.bot, if strFalsy t then
              some (confirmationMessage [] (orderNumber env.rand)) else t⟩]) := by
  constructor
  · intro hi
    constructor
    · simp [handleSendMessage, h1, h2, hinit, hsend, hfc, hn, hi, dropLast_append_pair,
        errorMessage]
    · simp [handleSendMessage, h1, h2, hinit, hsend, hfc, hn, hi]
  · intro t hi ht
    constructor
    · simp [handleSendMessage, h1, h2, hinit, hsend, hfc, hn, hi, ht, toolResultText]
    · simp [handleSendMessage, h1, h2, hinit, hsend, hfc, hn, hi, ht, dropLast_append_pair]

/-- Witness for the amended C5: a turn whose placeOrder call carries no
items argument ends with the apology record. -/
theorem C5_missing_items_error_witness :
    (handleSendMessage ⟨[], "order food", false⟩
        ⟨true, Except.ok ⟨[⟨some "call1", "placeOrder", none⟩], none⟩,
          Except.ok none, 0⟩).state.messages
      = [⟨Sender.user, some "order food"⟩,
         ⟨Sender.bot, some "Sorry, something went wrong. Please try again."⟩] ∧
    (handleSendMessage ⟨[], "order food", false⟩
        ⟨true, Except.ok ⟨[⟨some "call1", "placeOrder", none⟩], none⟩,
          Except.ok none, 0⟩).toolCalls = [] := by
  have h := C5_missing_items_error ⟨[], "order food", false⟩
    ⟨true, Except.ok ⟨[⟨some "call1", "placeOrder", none⟩], none⟩, Except.ok none, 0⟩
    ⟨[⟨some "call1", "placeOrder", none⟩], none⟩ ⟨some "call1", "placeOrder", none⟩ []
    (by decide) rfl rfl rfl rfl rfl
  have h2 := h.1 rfl
  exact ⟨by simpa using h2.1, h2.2⟩

/-- C6: for every guard-passing turn whose response requests a placeOrder
invocation with an items list, the tool response is sent and the pending
record is replaced with the service text when that text is non-falsy and
with the locally built confirmation otherwise; the confirmation contains
every ordered item name and the same order number as the tool result,
and the final bot record always holds non-empty text. -/
theorem C6_place_order_turn (s : AppState) (env : TurnEnv) (r : SendResult)
    (fc : FunctionCall) (rest : List FunctionCall) (items : List String) (t : Option String)
    (h1 : jsTrim s.userInput ≠ "") (h2 : s.isLoading = false)
    (hinit : env.chatInitialized = true)
    (hsend : env.sendResult = Except.ok r)
    (hfc : r.functionCalls = fc :: rest)
    (hn : fc.name = "placeOrder")
    (hi : fc.argsItems = some items)
    (ht : env.toolResult = Except.ok t) :
    (handleSendMessage s env).state.messages
      = s.messages ++ [⟨Sender.user, some s.userInput⟩,
          ⟨Sender.bot, if strFalsy t then
            some (confirmationMessage items (orderNumber env.rand)) else t⟩] ∧
    (handleSendMessage s env).toolCalls
      = [⟨fc.id, fc.name, "Order placed successfully. Order number: "
          ++ toString (orderNumber env.rand)⟩] ∧
    (∀ it ∈ items, ∃ p q, confirmationMessage items (orderNumber env.rand) = p ++ it ++ q) ∧
    (∃ p q, confirmationMessage items (orderNumber env.rand)
        = p ++ ("#" ++ toString (orderNumber env.rand)) ++ q) ∧
    (∃ u : String, u ≠ "" ∧
      (handleSendMessage s env).state.messages.getLast? = some ⟨Sender.bot, some u⟩) := by
  have hmsg : (handleSendMessage s env).state.messages
      = s.messages ++ [⟨Sender.user, some s.userInput⟩,
          ⟨Sender.bot, if strFalsy t then
            some (confirmationMessage items (orderNumber env.rand)) else t⟩] := by
    simp [handleSendMessage, h1, h2, hinit, hsend, hfc, hn, hi, ht, dropLast_append_pair]
  refine ⟨hmsg, ?_, ?_, ?_, ?_⟩
  · simp [handleSendMessage, h1, h2, hinit, hsend, hfc, hn, hi, ht, toolResultText]
  · intro it hit
    obtain ⟨p, q, hpq⟩ := jsJoin_contains it items hit
    refine ⟨"Great! I\x27ve placed an order for: " ++ p,
      q ++ ". Your order number is #" ++ toString (orderNumber env.rand)
        ++ ". Is there anything else?", ?_⟩
    rw [confirmationMessage, hpq]
    simp [String.append_assoc]
  · refine ⟨"Great! I\x27ve placed an order for: " ++ jsJoin ", " items
        ++ ". Your order number is ", ". Is there anything else?", ?_⟩
    rw [confirmationMessage]
    simp only [String.append_assoc, hash_append_split]
  · rw [hmsg, getLast?_append_pair]
    rcases t with _ | u
    · exact ⟨confirmationMessage items (orderNumber env.rand),
        confirmationMessage_ne_empty _ _, by simp [strFalsy]⟩
    · by_cases hu : u = ""
      · subst hu
        exact ⟨confirmationMessage items (orderNumber env.rand),
          confirmationMessage_ne_empty _ _, by simp [strFalsy]⟩
      · exact ⟨u, hu, by simp [strFalsy, hu]⟩

/-- Witness for C6: Pizza and Coke ordered, the service's follow-up text
empty, the confirmation fallback used. -/
theorem C6_place_order_turn_witness :
    (handleSendMessage ⟨[], "a Pizza and a Coke", false⟩
        ⟨true, Except.ok ⟨[⟨some "c6", "placeOrder", some ["Pizza", "Coke"]⟩], none⟩,
          Except.ok (some ""), 0⟩).state.messages
      = [] ++ [⟨Sender.user, some "a Pizza and a Coke"⟩,
          ⟨Sender.bot, if strFalsy (some "") then
            some (confirmationMessage ["Pizza", "Coke"] (orderNumber 0)) else some ""⟩] ∧
    (handleSendMessage ⟨[], "a Pizza and a Coke", false⟩
        ⟨true, Except.ok ⟨[⟨some "c6", "placeOrder", some ["Pizza", "Coke"]⟩], none⟩,
          Except.ok (some ""), 0⟩).toolCalls
      = [⟨some "c6", "placeOrder", "Order placed successfully. Order number: "
          ++ toString (orderNumber 0)⟩] ∧
    (∀ it ∈ (["Pizza", "Coke"] : List String),
      ∃ p q, confirmationMessage ["Pizza", "Coke"] (orderNumber 0) = p ++ it ++ q) ∧
    (∃ p q, confirmationMessage ["Pizza", "Coke"] (orderNumber 0)
        = p ++ ("#" ++ toString (orderNumber 0)) ++ q) ∧
    (∃ u : String, u ≠ "" ∧
      (handleSendMessage ⟨[], "a Pizza and a Coke", false⟩
        ⟨true, Except.ok ⟨[⟨some "c6", "placeOrder", some ["Pizza", "Coke"]⟩], none⟩,
          Except.ok (some ""), 0⟩).state.messages.getLast? = some ⟨Sender.bot, some u⟩) :=
  C6_place_order_turn ⟨[], "a Pizza and a Coke", false⟩
    ⟨true, Except.ok ⟨[⟨some "c6", "placeOrder", some ["Pizza", "Coke"]⟩], none⟩,
      Except.ok (some ""), 0⟩
    ⟨[⟨some "c6", "placeOrder", some ["Pizza", "Coke"]⟩], none⟩
    ⟨some "c6", "placeOrder", some ["Pizza", "Coke"]⟩ [] ["Pizza", "Coke"] (some "")
    (by decide) rfl rfl rfl rfl rfl rfl rfl

/-- C9 counterexample: a turn whose response requests an action (its
function-call list is nonempty, naming cancelOrder) sends no tool
response at all, so sendToolResult is not called exactly once on every
ActionRequested turn. -/
theorem C9_counterexample :
    (handleSendMessage ⟨[], "cancel my order", false⟩
        ⟨true, Except.ok ⟨[⟨some "call2", "cancelOrder", some ["Pizza"]⟩], some "ok"⟩,
          Except.ok none, 0⟩).toolCalls.length = 0 ∧
    ¬ (handleSendMessage ⟨[], "cancel my order", false⟩
        ⟨true, Except.ok ⟨[⟨some "call2", "cancelOrder", some ["Pizza"]⟩], some "ok"⟩,
          Except.ok none, 0⟩).toolCalls.length = 1 := by
  decide

/-- C9 as amended: every turn sends at most one tool response, and a
guard-passing placeOrder turn with an items argument sends exactly one,
tagged with the invocation's correlation id and name unchanged. -/
theorem C9_tool_response_correlation (s : AppState) (env : TurnEnv) :
    (handleSendMessage s env).toolCalls.length ≤ 1 ∧
    (∀ (r : SendResult) (fc : FunctionCall) (rest : List FunctionCall) (items : List String),
      jsTrim s.userInput ≠ "" → s.isLoading = false →
      env.chatInitialized = true →
      env.sendResult = Except.ok r → r.functionCalls = fc :: rest →
      fc.name = "placeOrder" → fc.argsItems = some items →
      (handleSendMessage s env).toolCalls
        = [⟨fc.id, fc.name, "Order placed successfully. Order number: "
            ++ toString (orderNumber env.rand)⟩]) := by
  constructor
  · by_cases h1 : jsTrim s.userInput = ""
    · simp [handleSendMessage, h1]
    · cases hl : s.isLoading
      · obtain ⟨last, sends, tools, _, htools, heq⟩ := handleSendMessage_shape s env h1 hl
        rw [heq]
        exact htools
      · simp [handleSendMessage, h1, hl]
  · intro r fc rest items h1 h2 hinit hsend hfc hn hi
    rcases ht : env.toolResult with _ | t
    · simp [handleSendMessage, h1, h2, hinit, hsend, hfc, hn, hi, ht, toolResultText]
    · simp [handleSendMessage, h1, h2, hinit, hsend, hfc, hn, hi, ht, toolResultText]

/-- Witness for the amended C9: a concrete placeOrder turn whose tool
response carries the correlation id c9w unchanged. -/
theorem C9_tool_response_correlation_witness :
    (handleSendMessage ⟨[], "two pizzas", false⟩
        ⟨true, Except.ok ⟨[⟨some "c9w", "placeOrder", some ["Pizza", "Pizza"]⟩], none⟩,
          Except.ok (some "Done!"), 0⟩).toolCalls
      = [⟨some "c9w", "placeOrder",
          "Order placed successfully. Order number: " ++ toString (orderNumber 0)⟩] :=
  (C9_tool_response_correlation ⟨[], "two pizzas", false⟩
      ⟨true, Except.ok ⟨[⟨some "c9w", "placeOrder", some ["Pizza", "Pizza"]⟩], none⟩,
        Except.ok (some "Done!"), 0⟩).2
    ⟨[⟨some "c9w", "placeOrder", some ["Pizza", "Pizza"]⟩], none⟩
    ⟨some "c9w", "placeOrder", some ["Pizza", "Pizza"]⟩ [] ["Pizza", "Pizza"]
    (by decide) rfl rfl rfl rfl rfl rfl

end Cafees
